import Mathlib

/-!
Verification development for the be-aibot-healthcare backend.

The development shallowly embeds the conversational dialogue controller of
`src/backend/src/api/routes/chat.py` (`chat_with_bot`), the booking endpoint
`book_appointment` of `src/backend/src/api/routes/appointment.py`, and the
reminder CRUD routines `generate_reminder_times` and `activate_reminders` of
`src/backend/src/repository/crud/reminder.py`.

Database reads and the collaborator services that are not part of the
embedded code (time-slot listing, the intent classifier, the reminder
activation endpoint) are modelled as an explicit environment record `Env`
whose fields stand for the values those collaborators return during the
turn.  Database writes performed by the embedded code are recorded as an
explicit list of `Effect`s.  Python strings are Lean `String`s; the
`.strip().lower()` preprocessing is `String.trim` followed by
`String.toLower` (Python's full-Unicode case folding and underscore /
non-ASCII digit acceptance of `int(...)` are not modelled; all inputs of
interest here are ASCII).
-/

namespace BeAibotHealthcare

/-- Doctor record, the fields of the ORM model that the controller reads. -/
structure Doctor where
  user_id : Nat
  first_name : String
  last_name : String
  specialization : String
deriving Repr, DecidableEq, Inhabited

/-- Time slot record: id, start/end times (hour, minute) and status string. -/
structure TimeSlot where
  time_slot_id : Nat
  start_hour : Nat
  start_minute : Nat
  end_hour : Nat
  end_minute : Nat
  status : String
deriving Repr, DecidableEq, Inhabited

/-- Entry of `conversation_state["prescriptions"]`: the dict
`{"prescription_id": ..., "details": medication_name}` built in `chat.py`. -/
structure PendingRx where
  prescription_id : Nat
  details : String
deriving Repr, DecidableEq, Inhabited

/-- Prescription record as read in the `check_inactive_appointments` stage. -/
structure PrescriptionRec where
  prescription_id : Nat
  medication_name : String
  is_active : Bool
deriving Repr, DecidableEq, Inhabited

/-- Appointment record: the two fields read by the controller. -/
structure ApptRec where
  patient_id : Nat
  doctor_id : Nat
deriving Repr, DecidableEq, Inhabited

/-- Reminder time of day, the dict `{"hour": h, "minute": m}` of
`generate_reminder_times`. -/
structure RemTime where
  hour : Nat
  minute : Nat
deriving Repr, DecidableEq, Inhabited

/-- Status enum of a reminder (`ReminderStatus`). -/
inductive ReminderStatus where
  | active
  | inactive
deriving Repr, DecidableEq, Inhabited

/-- Reminder row as touched by `activate_reminders` in
`src/backend/src/repository/crud/reminder.py`: a status, an optional
assigned date (modelled as a day number), and a time of day. -/
structure ReminderRec where
  reminder_id : Nat
  status : ReminderStatus
  reminder_date : Option Nat
  time : RemTime
deriving Repr, DecidableEq, Inhabited

/-- The global `conversation_state` dict of `chat.py`.  Keys that the code
`pop`s are modelled as an empty list / `none`; the distinction between an
absent key and an empty value is unobservable on the reachable paths. -/
structure ConvState where
  stage : String
  doctors : List Doctor
  selected_doctor : Option Doctor
  appointment_id : Option Nat
  prescriptions : List PendingRx
deriving Repr, DecidableEq, Inhabited

/-- The module-level initial value of `conversation_state`
(chat.py lines 32-35): `{"stage": "initial", "doctors": []}`. -/
def initial_conversation_state : ConvState :=
  { stage := "initial", doctors := [], selected_doctor := none,
    appointment_id := none, prescriptions := [] }

/-- HTTPException carried as data: status code and detail string. -/
structure HTTPError where
  status_code : Nat
  detail : String
deriving Repr, DecidableEq, Inhabited

/-- The `DoctorResponse` schema returned in the `doctors` field. -/
structure DoctorResponse where
  first_name : String
  last_name : String
  specialization : String
deriving Repr, DecidableEq, Inhabited

/-- The `ChatResponse` schema: a reply text plus an optional doctor list
(absent list modelled as `[]`). -/
structure ChatResponse where
  response : String
  doctors : List DoctorResponse
deriving Repr, DecidableEq, Inhabited

/-- Result of `get_chatbot_response` (the intent classifier collaborator in
`src/repository/crud/chat.py`, consumed as a black box): a canned response
plus the two optional intent flags. -/
structure ClassifierResult where
  response : String
  suggest_doctor : Bool
  specialization : String
  check_prescriptions : Bool
deriving Repr, DecidableEq, Inhabited

/-- Database writes issued by the embedded code during one turn, in order. -/
inductive Effect where
  | createAppointment (doctor_id : Nat) (time_slot_id : Nat) (patient_id : Nat)
  | updateSlotStatus (time_slot_id : Nat) (status : String)
  | activateRemindersCall (prescription_id : Nat)
  | markPrescriptionInactiveCall (prescription_id : Nat)
deriving Repr, DecidableEq, Inhabited

instance exceptDecEq {ε α : Type} [DecidableEq ε] [DecidableEq α] :
    DecidableEq (Except ε α) := fun a b =>
  match a, b with
  | Except.error e, Except.error f =>
    if h : e = f then isTrue (by rw [h]) else isFalse (fun hh => h (Except.error.inj hh))
  | Except.error _, Except.ok _ => isFalse (fun hh => Except.noConfusion hh)
  | Except.ok _, Except.error _ => isFalse (fun hh => Except.noConfusion hh)
  | Except.ok x, Except.ok y =>
    if h : x = y then isTrue (by rw [h]) else isFalse (fun hh => h (Except.ok.inj hh))

/-- Outcome of one chat turn: the HTTP-level reply (a `ChatResponse` or a
raised `HTTPException`), the final `conversation_state`, and the recorded
write effects. -/
structure TurnResult where
  reply : Except HTTPError ChatResponse
  state : ConvState
  effects : List Effect
deriving Repr

/-- Read-only environment: the values returned by the collaborator services
and database queries during the turn. -/
structure Env where
  availableSlots : Nat → List TimeSlot
  slotById : Nat → Option TimeSlot
  classifier : String → ClassifierResult
  doctorsBySpecDb : String → List Doctor
  inactiveAppointment : Nat → Option ApptRec
  prescriptionsFor : Nat → Nat → List PrescriptionRec
  hasActiveReminder : Nat → Bool
  activateRx : Nat → Except String (List RemTime)
  markInactive : Nat → Bool

/-- Python `str.lower()`, modelled as ASCII case folding over the character
list (Python's full-Unicode folding is not modelled). -/
def pyLower (s : String) : String := ⟨s.data.map Char.toLower⟩

/-- Python `str.strip()`: whitespace dropped from both ends. -/
def pyStrip (s : String) : String :=
  ⟨((s.data.dropWhile Char.isWhitespace).reverse.dropWhile Char.isWhitespace).reverse⟩

/-- Drop the final `n` characters, the Python slice `[:-n]`. -/
def dropRightChars (s : String) (n : Nat) : String :=
  ⟨s.data.take (s.data.length - n)⟩

/-- Decimal value of a digit list. -/
def digitsToNat (cs : List Char) : Nat :=
  cs.foldl (fun a c => a * 10 + (c.toNat - 48)) 0

/-- Model of Python `int(s)` on an already stripped string: an optional
sign followed by decimal digits (underscore separators and non-ASCII
digits accepted by Python are not modelled). -/
def parseIntPy (s : String) : Option Int :=
  match s.data with
  | [] => none
  | '-' :: rest =>
    if rest ≠ [] ∧ rest.all Char.isDigit then some (-(digitsToNat rest : Int)) else none
  | '+' :: rest =>
    if rest ≠ [] ∧ rest.all Char.isDigit then some ((digitsToNat rest : Int)) else none
  | cs =>
    if cs.all Char.isDigit then some ((digitsToNat cs : Int)) else none

/-- Zero-padded two-digit decimal, as produced by strftime. -/
def pad2 (n : Nat) : String :=
  if n < 10 then "0" ++ toString n else toString n

/-- Model of `strftime("%I:%M %p")`: 12-hour zero-padded clock. -/
def fmt12 (h m : Nat) : String :=
  pad2 ((h + 11) % 12 + 1) ++ ":" ++ pad2 m ++ " " ++ (if h < 12 then "AM" else "PM")

/-- Lowercased `"first last"` full name compared against the user message in
the `awaiting_doctor_selection` stage. -/
def fullNameLower (d : Doctor) : String :=
  pyLower (d.first_name ++ " " ++ d.last_name)

/-- Reset keywords recognised at the top of every turn. -/
def resetWords : List String := ["reset", "start over"]

/-- Affirmative word set of the `activate_reminders` stage. -/
def affirmativeResponses : List String :=
  ["yes", "yeah", "yup", "sure", "ok", "alright", "go ahead"]

/-- Negative word set of the `activate_reminders` stage. -/
def negativeResponses : List String :=
  ["no", "nope", "not now", "nah", "never mind"]

/-- Exit word set of the `waiting_for_exit` stage. -/
def exitWords : List String := ["ok", "okay", "fine", "thanks", "exit", "no"]

/-- The six stage values named by the specification. -/
def definedStages : List String :=
  ["general", "awaiting_doctor_selection", "awaiting_slot_selection",
   "check_inactive_appointments", "activate_reminders", "waiting_for_exit"]

/-- All stage strings the code actually produces: the six specified ones
plus the initialization value `"initial"` and the `"reset"` value assigned
by the `waiting_for_exit` exit-word transition. -/
def allStages : List String := definedStages ++ ["initial", "reset"]

/-- Canned reply of the reset branch. -/
def resetReply : String :=
  "The conversation has been reset. You can start by asking a new question."

/-- Reply when no candidate doctor name matches. -/
def doctorNotFoundReply : String :=
  "I couldn\x27t find the doctor you mentioned. Please enter the full name of the doctor you want to select, or type \x27reset\x27 to ask another question."

/-- Clarification reply for an out-of-range slot number. -/
def slotInvalidReply : String :=
  "The selected time slot is not available. Please enter a valid number corresponding to the slot, or type \x27reset\x27 to start over."

/-- Detail of the HTTP 500 raised by the top-level exception handler of
`chat_with_bot`. -/
def chatFailureDetail : String := "Failed to communicate with the chatbot."

/-- Reply when an affirmative arrives with an empty pending list. -/
def allActivatedReply : String := "All reminders have already been activated."

/-- Acknowledgement reply of the `waiting_for_exit` stage. -/
def exitAckReply : String := "Understood. Is there anything else I can help you with?"

/-- Clarification reply of the `waiting_for_exit` stage. -/
def exitClarifyReply : String :=
  "I\x27m sorry, I didn\x27t understand that. If you\x27re done, you can say \x27okay\x27 or \x27exit\x27. Is there anything else I can help you with?"

/-- Clarification reply of the `activate_reminders` stage. -/
def yesNoClarifyReply : String :=
  "I didn\x27t understand that. Please answer with \x27Yes\x27 or \x27No\x27 (or similar terms)."

/-- Reply to a negative answer in the `activate_reminders` stage. -/
def negativeDoneReply : String :=
  "Alright, I won\x27t activate any more reminders for now. You can always ask me to activate them later."

/-- Reply when the patient has no inactive appointment. -/
def noPrescriptionsReply : String :=
  "It appears that your doctor hasn\x27t entered any prescriptions for you at the moment."

/-- Reply when the appointment has no prescriptions. -/
def noNewPrescriptionsReply : String :=
  "It appears that your doctor hasn\x27t entered any new prescriptions for you at the moment."

/-- Reply when all active prescriptions already have active reminders. -/
def allHaveRemindersReply : String :=
  "All your active prescriptions already have active reminders."

/-- The `no_slots_response` prefix built when the matched doctor has no
available time slots. -/
def noSlotsResponse (d : Doctor) : String :=
  "Unfortunately, there are no available time slots for Dr. " ++ d.first_name ++ " " ++
    d.last_name ++ " at the moment. Let me find other doctors for you."

/-- Newline-joined `"Dr. first last"` lines. -/
def doctorNameLines (ds : List Doctor) : String :=
  String.intercalate "\n" (ds.map fun doc => "Dr. " ++ doc.first_name ++ " " ++ doc.last_name)

/-- Reply offering the other doctors that do have open slots. -/
def otherDoctorsReply (d : Doctor) (others : List Doctor) : String :=
  noSlotsResponse d ++ "\n\n" ++ "Here are other doctors you can choose from:\n" ++
    doctorNameLines others ++ "\n\n" ++
    "Please enter the full name of the doctor you would like to select, or type \x27reset\x27 to start over."

/-- Reply when no other doctor has open slots either. -/
def noOtherDoctorsReply (d : Doctor) : String :=
  noSlotsResponse d ++ "\n\n" ++
    "Unfortunately, there are no other doctors available at the moment. You can type \x27reset\x27 or \x27start over\x27 at any time to begin a new conversation."

/-- The 1-based numbered slot list shown to the user. -/
def slotsListString (slots : List TimeSlot) : String :=
  String.intercalate "\n" (slots.enum.map fun p =>
    toString (p.1 + 1) ++ ". " ++ fmt12 p.2.start_hour p.2.start_minute ++ " - " ++
      fmt12 p.2.end_hour p.2.end_minute)

/-- Reply listing a matched doctor's available slots. -/
def slotSelectionPrompt (d : Doctor) (slots : List TimeSlot) : String :=
  "Here are the available time slots for Dr. " ++ d.first_name ++ " " ++ d.last_name ++
    ":\n\n" ++ slotsListString slots ++ "\n\n" ++
    "Please enter the number corresponding to the slot you would like to book. You can also type \x27reset\x27 or \x27start over\x27 at any time to begin a new conversation."

/-- Booking confirmation reply; the source truncates the end time's
`" PM"`/`" AM"` suffix with `[:-3]`, here `String.dropRight 3`. -/
def bookingConfirmReply (d : Doctor) (slot : TimeSlot) : String :=
  "Your appointment with Dr. " ++ d.first_name ++ " " ++ d.last_name ++
    " has been successfully booked for " ++ fmt12 slot.start_hour slot.start_minute ++
    " - " ++ dropRightChars (fmt12 slot.end_hour slot.end_minute) 3 ++
    ". You can type \x27reset\x27 or \x27start over\x27 at any time to begin a new conversation."

/-- Reply listing the prescriptions found for reminder activation. -/
def prescriptionsFoundReply (ps : List PrescriptionRec) : String :=
  "I found the following prescriptions:\n" ++
    String.intercalate "\n" (ps.enum.map fun p => toString (p.1 + 1) ++ ". " ++ p.2.medication_name) ++
    "\nWould you like to activate reminders for any of them? (Yes/No)"

/-- Comma-joined formatted reminder times. -/
def remTimesString (ts : List RemTime) : String :=
  String.intercalate ", " (ts.map fun t => fmt12 t.hour t.minute)

/-- Reply after activating one prescription when more remain pending. -/
def activationNextReply (med times next : String) : String :=
  "Reminders for " ++ med ++ " have been activated for: " ++ times ++
    ". The prescription has been marked as inactive. Would you like to activate reminders for the next prescription (" ++
    next ++ ")? (Yes/No)"

/-- Reply after activating the last pending prescription. -/
def activationDoneReply (med times : String) : String :=
  "Reminders for " ++ med ++ " have been activated. You\x27ll receive reminders at: " ++
    times ++ ". The prescription has been marked as inactive. All prescriptions have been processed."

/-- Reply when the reminder-activation endpoint raised an HTTPException. -/
def activationIssueReply (med detail : String) : String :=
  "I\x27m sorry, there was an issue activating your reminders for " ++ med ++ ": " ++ detail

/-- Reply when the doctor lookup returned an empty list. -/
def noDoctorsFoundReply (resp spec : String) : String :=
  resp ++ " However, no doctors were found for the specialization: " ++ spec ++
    ". You can type \x27reset\x27 or \x27start over\x27 to begin a new conversation."

/-- Reply when the doctor lookup raised an HTTPException. -/
def apologyNoDoctorsReply (resp : String) : String :=
  resp ++ " Unfortunately, no doctors are available at the moment for your concerns. Please consult a healthcare professional if needed."

/-- Newline-joined `"Dr. first last (specialization)"` lines. -/
def doctorSpecLines (ds : List Doctor) : String :=
  String.intercalate "\n" (ds.map fun doc =>
    "Dr. " ++ doc.first_name ++ " " ++ doc.last_name ++ " (" ++ doc.specialization ++ ")")

/-- Reply offering the doctors found for a specialization. -/
def doctorsOfferReply (resp : String) (ds : List Doctor) : String :=
  resp ++ "\n\n" ++ "Here are the available doctors:\n" ++ doctorSpecLines ds ++ "\n\n" ++
    "Please enter the full name of the doctor you want to select, or type \x27reset\x27 to start a new conversation."

/-- Default reply: the classifier's canned text plus the reset hint. -/
def plainReply (resp : String) : String :=
  resp ++ " You can type \x27reset\x27 or \x27start over\x27 to begin a new conversation."

/-- Embedding of `get_doctors_by_specialization`
(`src/backend/src/api/routes/user.py` lines 275-302): an empty lookup
raises HTTPException 404, otherwise the list is returned. -/
def get_doctors_by_specialization (env : Env) (spec : String) : Except HTTPError (List Doctor) :=
  let doctors := env.doctorsBySpecDb spec
  if doctors.isEmpty then
    Except.error
      { status_code := 404,
        detail := "No doctors found for the given specialization: \x27" ++ spec ++ "\x27" }
  else
    Except.ok doctors

/-- Embedding of `book_appointment`
(`src/backend/src/api/routes/appointment.py` lines 54-93).  The inner
HTTPException 400 for an unavailable slot is caught by the function's own
broad `except Exception` and re-raised as a 500, so both failure paths
surface as 500; a missing slot row makes the `.status` attribute access
raise, with the same 500 wrapping. -/
def book_appointment (env : Env) (doctor_id time_slot_id patient_id : Nat) :
    Except HTTPError (List Effect) :=
  match env.slotById time_slot_id with
  | none => Except.error { status_code := 500, detail := "Error booking the appointment" }
  | some ts =>
    if ts.status ≠ "available" then
      Except.error { status_code := 500, detail := "Error booking the appointment" }
    else
      Except.ok [Effect.createAppointment doctor_id time_slot_id patient_id,
                 Effect.updateSlotStatus time_slot_id "booked"]

/-- The reset branch of `chat_with_bot` (lines 69-76): stage to `general`,
`doctors`, `selected_doctor` and `appointment_id` keys popped; the
`prescriptions` key is not popped. -/
def resetTurn (s : ConvState) : TurnResult :=
  { reply := Except.ok { response := resetReply, doctors := [] },
    state := { stage := "general", doctors := [], selected_doctor := none,
               appointment_id := none, prescriptions := s.prescriptions },
    effects := [] }

/-- Body executed when a candidate doctor's full name matched the message
(lines 86-142): list the doctor's slots, or report other doctors with
slots when this one has none (stage unchanged in that case). -/
def handleDoctorMatch (env : Env) (s : ConvState) (d : Doctor) : TurnResult :=
  let available_slots := env.availableSlots d.user_id
  if available_slots.isEmpty then
    let other_doctors_with_slots := s.doctors.filter fun doc =>
      doc.user_id != d.user_id && !(env.availableSlots doc.user_id).isEmpty
    if !other_doctors_with_slots.isEmpty then
      { reply := Except.ok { response := otherDoctorsReply d other_doctors_with_slots, doctors := [] },
        state := s, effects := [] }
    else
      { reply := Except.ok { response := noOtherDoctorsReply d, doctors := [] },
        state := s, effects := [] }
  else
    { reply := Except.ok { response := slotSelectionPrompt d available_slots, doctors := [] },
      state := { s with stage := "awaiting_slot_selection", selected_doctor := some d },
      effects := [] }

/-- The `for doctor in conversation_state["doctors"]` loop of the
`awaiting_doctor_selection` stage (lines 83-146): first full-name match
wins, otherwise fall through to the not-found reply. -/
def doctorLoop (env : Env) (s : ConvState) (msg : String) : List Doctor → TurnResult
  | [] =>
    { reply := Except.ok { response := doctorNotFoundReply, doctors := [] },
      state := s, effects := [] }
  | d :: rest =>
    if msg = fullNameLower d then handleDoctorMatch env s d
    else doctorLoop env s msg rest

/-- Stage 1 handler: doctor selection (lines 81-146). -/
def handleDoctorSelection (env : Env) (msg : String) (s : ConvState) : TurnResult :=
  doctorLoop env s msg s.doctors

/-- Stage 2 handler: slot selection (lines 149-178).  A non-numeric message
makes `int(user_message)` raise ValueError, which only the top-level broad
handler catches, re-raised as HTTPException 500; likewise a missing
`selected_doctor` key would raise KeyError with the same wrapping. -/
def handleSlotSelection (env : Env) (pid : Nat) (msg : String) (s : ConvState) : TurnResult :=
  match parseIntPy msg with
  | none =>
    { reply := Except.error { status_code := 500, detail := chatFailureDetail },
      state := s, effects := [] }
  | some n =>
    let selected_slot_index : Int := n - 1
    match s.selected_doctor with
    | none =>
      { reply := Except.error { status_code := 500, detail := chatFailureDetail },
        state := s, effects := [] }
    | some d =>
      let available_slots := env.availableSlots d.user_id
      if 0 ≤ selected_slot_index ∧ selected_slot_index < (available_slots.length : Int) then
        let selected_slot := available_slots.getD selected_slot_index.toNat default
        match book_appointment env d.user_id selected_slot.time_slot_id pid with
        | Except.error _ =>
          { reply := Except.error { status_code := 500, detail := chatFailureDetail },
            state := s, effects := [] }
        | Except.ok effs =>
          { reply := Except.ok { response := bookingConfirmReply d selected_slot, doctors := [] },
            state := { s with stage := "general" }, effects := effs }
      else
        { reply := Except.ok { response := slotInvalidReply, doctors := [] },
          state := s, effects := [] }

/-- Stage 3 handler: prescription check (lines 181-243).  The loop
filtering prescriptions to active ones without an active reminder is the
`filter` below. -/
def handleCheckInactive (env : Env) (pid : Nat) (s : ConvState) : TurnResult :=
  match env.inactiveAppointment pid with
  | some appt =>
    let prescriptions := env.prescriptionsFor appt.patient_id appt.doctor_id
    if !prescriptions.isEmpty then
      let inactive_prescriptions := prescriptions.filter fun p =>
        p.is_active && !(env.hasActiveReminder p.prescription_id)
      if !inactive_prescriptions.isEmpty then
        { reply := Except.ok { response := prescriptionsFoundReply inactive_prescriptions, doctors := [] },
          state :=
            { s with
              stage := "activate_reminders",
              prescriptions := inactive_prescriptions.map fun p =>
                { prescription_id := p.prescription_id, details := p.medication_name } },
          effects := [] }
      else
        { reply := Except.ok { response := allHaveRemindersReply, doctors := [] },
          state := { s with stage := "waiting_for_exit" }, effects := [] }
    else
      { reply := Except.ok { response := noNewPrescriptionsReply, doctors := [] },
        state := { s with stage := "waiting_for_exit" }, effects := [] }
  | none =>
    { reply := Except.ok { response := noPrescriptionsReply, doctors := [] },
      state := { s with stage := "waiting_for_exit" }, effects := [] }

/-- Stage 4 handler: exit keywords (lines 246-255).  Note the assigned
stage is the string `"reset"`, not one of the six specified stages. -/
def handleWaitingForExit (msg : String) (s : ConvState) : TurnResult :=
  if exitWords.contains msg then
    { reply := Except.ok { response := exitAckReply, doctors := [] },
      state := { s with stage := "reset" }, effects := [] }
  else
    { reply := Except.ok { response := exitClarifyReply, doctors := [] },
      state := s, effects := [] }

/-- Stage 5 handler: reminder activation (lines 258-315). -/
def handleActivateReminders (env : Env) (msg : String) (s : ConvState) : TurnResult :=
  if affirmativeResponses.contains msg then
    match s.prescriptions with
    | current :: rest =>
      match env.activateRx current.prescription_id with
      | Except.ok activated =>
        let reminder_times := remTimesString activated
        let effs := [Effect.activateRemindersCall current.prescription_id,
                     Effect.markPrescriptionInactiveCall current.prescription_id]
        match rest with
        | next :: _ =>
          { reply := Except.ok { response :=
              activationNextReply current.details reminder_times next.details, doctors := [] },
            state := { s with prescriptions := rest }, effects := effs }
        | [] =>
          { reply := Except.ok { response :=
              activationDoneReply current.details reminder_times, doctors := [] },
            state := { s with stage := "general", prescriptions := rest }, effects := effs }
      | Except.error detail =>
        { reply := Except.ok { response := activationIssueReply current.details detail, doctors := [] },
          state := { s with stage := "general" },
          effects := [Effect.activateRemindersCall current.prescription_id] }
    | [] =>
      { reply := Except.ok { response := allActivatedReply, doctors := [] },
        state := { s with stage := "general" }, effects := [] }
  else if negativeResponses.contains msg then
    { reply := Except.ok { response := negativeDoneReply, doctors := [] },
      state := { s with stage := "general" }, effects := [] }
  else
    { reply := Except.ok { response := yesNoClarifyReply, doctors := [] },
      state := s, effects := [] }

/-- Default branch: general conversation via the intent classifier
(lines 317-368).  The `check_prescriptions` intent sets the stage and then
re-invokes `chat_with_bot` directly (`return await chat_with_bot(query, db)`,
line 363).  That direct call does not go through FastAPI dependency
resolution, so in the recursive frame `current_user` is still the
`Depends(get_current_user)` default and `current_user.user_id` (line 66)
raises AttributeError before the recursive frame reaches its `try`; the
outer frame's broad handler (lines 370-374) converts it to HTTPException
500.  The stage mutation to `"check_inactive_appointments"` (line 362) has
already happened, so the turn surfaces a 500 with the stage left at
`check_inactive_appointments`; the stage 3 handler actually runs only on
the next request, via the normal dispatch. -/
def handleGeneral (env : Env) (pid : Nat) (msg : String) (s : ConvState) : TurnResult :=
  let chatbot_response := env.classifier msg
  if chatbot_response.suggest_doctor then
    let specialization := chatbot_response.specialization
    match get_doctors_by_specialization env specialization with
    | Except.error _ =>
      { reply := Except.ok { response := apologyNoDoctorsReply chatbot_response.response, doctors := [] },
        state := s, effects := [] }
    | Except.ok doctors_response =>
      if doctors_response.isEmpty then
        { reply := Except.ok { response :=
            noDoctorsFoundReply chatbot_response.response specialization, doctors := [] },
          state := s, effects := [] }
      else
        { reply := Except.ok
            { response := doctorsOfferReply chatbot_response.response doctors_response,
              doctors := doctors_response.map fun d =>
                { first_name := d.first_name,
                  last_name := d.last_name,
                  specialization := d.specialization } },
          state := { s with stage := "awaiting_doctor_selection", doctors := doctors_response },
          effects := [] }
  else if chatbot_response.check_prescriptions then
    { reply := Except.error { status_code := 500, detail := chatFailureDetail },
      state := { s with stage := "check_inactive_appointments" },
      effects := [] }
  else
    { reply := Except.ok { response := plainReply chatbot_response.response, doctors := [] },
      state := s, effects := [] }

/-- Embedding of one turn of `chat_with_bot`
(`src/backend/src/api/routes/chat.py` lines 43-374): preprocess the
message, take the reset branch, else dispatch on the current stage; stages
other than the four `elif`-matched ones (including `"initial"`, `"reset"`
and `"general"`) fall through to the general handler. -/
def chat_with_bot (env : Env) (pid : Nat) (raw : String) (s : ConvState) : TurnResult :=
  let user_message := pyLower (pyStrip raw)
  if resetWords.contains user_message then resetTurn s
  else if s.stage = "awaiting_doctor_selection" then handleDoctorSelection env user_message s
  else if s.stage = "awaiting_slot_selection" then handleSlotSelection env pid user_message s
  else if s.stage = "check_inactive_appointments" then handleCheckInactive env pid s
  else if s.stage = "waiting_for_exit" then handleWaitingForExit user_message s
  else if s.stage = "activate_reminders" then handleActivateReminders env user_message s
  else handleGeneral env pid user_message s

/-- Embedding of `generate_reminder_times`
(`src/backend/src/repository/crud/reminder.py` lines 57-78): presets for
frequencies 1, 2, 3, ValueError otherwise. -/
def generate_reminder_times (frequency : Int) : Except String (List RemTime) :=
  if frequency = 1 then
    Except.ok [{ hour := 9, minute := 0 }]
  else if frequency = 2 then
    Except.ok [{ hour := 9, minute := 0 }, { hour := 18, minute := 0 }]
  else if frequency = 3 then
    Except.ok [{ hour := 9, minute := 0 }, { hour := 13, minute := 0 }, { hour := 18, minute := 0 }]
  else
    Except.error ("Unsupported frequency value: " ++ toString frequency)

/-- Activated copy of a reminder row: date assigned, status `ACTIVE`
(`reminder.py` lines 112-114; `base` models `pendulum.now().add(days=1)`
as a day number and `day` the loop offset). -/
def activatedRem (base day : Nat) (r : ReminderRec) : ReminderRec :=
  { r with reminder_date := some (base + day), status := ReminderStatus.active }

/-- Inner `for _ in range(frequency)` loop of `activate_reminders`
(lines 110-115), carried state is the reminder list plus `reminder_index`;
the guarded branch assigns date and status at the current index. -/
def innerLoop (base day count : Nat) : Nat → List ReminderRec × Nat → List ReminderRec × Nat
  | 0, st => st
  | j + 1, (rems, idx) =>
    if idx < count then
      innerLoop base day count j
        (rems.set idx (activatedRem base day (rems.getD idx default)), idx + 1)
    else
      innerLoop base day count j (rems, idx)

/-- Outer `for day in range(duration)` loop of `activate_reminders`
(lines 109-115): `day` is the current day offset, the second argument the
days still to process. -/
def outerLoop (base freq count : Nat) : Nat → Nat → List ReminderRec × Nat → List ReminderRec × Nat
  | _, 0, st => st
  | day, dLeft + 1, st => outerLoop base freq count (day + 1) dLeft (innerLoop base day count freq st)

/-- Embedding of `activate_reminders`
(`src/backend/src/repository/crud/reminder.py` lines 81-124): returns the
updated reminder rows together with the flag saying whether the
count-mismatch data inconsistency was logged (lines 105-106).  The only
raising path of the source is a database error on commit, which is outside
the embedded logic, so the embedding is total. -/
def activate_reminders (base freq dur : Nat) (rems : List ReminderRec) :
    List ReminderRec × Bool :=
  let reminders_count := rems.length
  let total_reminders_needed := freq * dur
  ((outerLoop base freq reminders_count 0 dur (rems, 0)).1,
   reminders_count != total_reminders_needed)

/-- Claim C4's invariant, stated over a single session state:
`selected_doctor` set only in `awaiting_slot_selection`, `prescriptions`
non-empty only in `activate_reminders`. -/
def SessionInv (s : ConvState) : Prop :=
  (s.selected_doctor.isSome → s.stage = "awaiting_slot_selection") ∧
  (s.prescriptions ≠ [] → s.stage = "activate_reminders")

instance (s : ConvState) : Decidable (SessionInv s) := by
  unfold SessionInv; infer_instance

/-- Assignment discipline actually enforced by the code: a turn that
changes `selected_doctor` to a set value moves to `awaiting_slot_selection`
in the same turn, and a turn that changes `prescriptions` to a different
non-empty list is in or moves to `activate_reminders`. -/
def AssignDiscipline (s t : ConvState) : Prop :=
  (t.selected_doctor ≠ s.selected_doctor → t.selected_doctor.isSome →
    t.stage = "awaiting_slot_selection") ∧
  (t.prescriptions ≠ s.prescriptions → t.prescriptions ≠ [] →
    t.stage = "activate_reminders")

/-- Fixture: an available morning slot. -/
def slotA : TimeSlot :=
  { time_slot_id := 101, start_hour := 9, start_minute := 0,
    end_hour := 10, end_minute := 0, status := "available" }

/-- Fixture: a second available slot. -/
def slotB : TimeSlot :=
  { time_slot_id := 102, start_hour := 10, start_minute := 0,
    end_hour := 11, end_minute := 0, status := "available" }

/-- Fixture: a third available slot. -/
def slotC : TimeSlot :=
  { time_slot_id := 103, start_hour := 14, start_minute := 0,
    end_hour := 15, end_minute := 0, status := "available" }

/-- Fixture doctor Alice Smith. -/
def drAlice : Doctor :=
  { user_id := 1, first_name := "Alice", last_name := "Smith", specialization := "Cardiology" }

/-- Fixture doctor Bob Lee. -/
def drBob : Doctor :=
  { user_id := 2, first_name := "Bob", last_name := "Lee", specialization := "Cardiology" }

/-- Fixture environment whose collaborators all return empty results. -/
def envBase : Env :=
  { availableSlots := fun _ => [],
    slotById := fun _ => none,
    classifier := fun _ =>
      { response := "Hello", suggest_doctor := false, specialization := "",
        check_prescriptions := false },
    doctorsBySpecDb := fun _ => [],
    inactiveAppointment := fun _ => none,
    prescriptionsFor := fun _ _ => [],
    hasActiveReminder := fun _ => false,
    activateRx := fun _ => Except.ok [],
    markInactive := fun _ => true }

/-- Fixture environment with three available slots for every doctor and a
consistent slot store. -/
def env3 : Env :=
  { envBase with
    availableSlots := fun _ => [slotA, slotB, slotC],
    slotById := fun i =>
      if i = 101 then some slotA
      else if i = 102 then some slotB
      else if i = 103 then some slotC
      else none }

/-- Fixture environment whose reminder activation returns two times. -/
def envAct : Env :=
  { envBase with
    activateRx := fun _ => Except.ok [{ hour := 9, minute := 0 }, { hour := 18, minute := 0 }] }

/-- Fixture session awaiting a slot number with Alice selected. -/
def sSlotSel : ConvState :=
  { stage := "awaiting_slot_selection", doctors := [drAlice],
    selected_doctor := some drAlice, appointment_id := none, prescriptions := [] }

/-- Fixture session awaiting a doctor name with candidates Alice and Bob. -/
def sDoctorSel : ConvState :=
  { stage := "awaiting_doctor_selection", doctors := [drAlice, drBob],
    selected_doctor := none, appointment_id := none, prescriptions := [] }

/-- Fixture session in the exit stage. -/
def sExit : ConvState :=
  { stage := "waiting_for_exit", doctors := [], selected_doctor := none,
    appointment_id := none, prescriptions := [] }

/-- Fixture pending prescription. -/
def rxA : PendingRx := { prescription_id := 11, details := "Amoxicillin" }

/-- Fixture pending prescription. -/
def rxB : PendingRx := { prescription_id := 12, details := "Ibuprofen" }

/-- Fixture session in reminder activation with two pending prescriptions. -/
def sActivate2 : ConvState :=
  { stage := "activate_reminders", doctors := [], selected_doctor := none,
    appointment_id := none, prescriptions := [rxA, rxB] }

/-- Fixture session in reminder activation with one pending prescription. -/
def sActivate1 : ConvState :=
  { sActivate2 with prescriptions := [rxA] }

/-- Fixture session in reminder activation with no pending prescription. -/
def sActivate0 : ConvState :=
  { sActivate2 with prescriptions := [] }

/-- Fixture inactive reminder row. -/
def remRow (i : Nat) : ReminderRec :=
  { reminder_id := i, status := ReminderStatus.inactive, reminder_date := none,
    time := { hour := 9, minute := 0 } }

/-! Helper lemmas about the stage produced by each handler. -/

theorem handleDoctorMatch_stage (env : Env) (s : ConvState) (d : Doctor) :
    (handleDoctorMatch env s d).state.stage = s.stage ∨
    (handleDoctorMatch env s d).state.stage = "awaiting_slot_selection" := by
  unfold handleDoctorMatch
  dsimp only
  split
  · split <;> simp
  · simp

theorem doctorLoop_stage (env : Env) (s : ConvState) (msg : String) (l : List Doctor) :
    (doctorLoop env s msg l).state.stage = s.stage ∨
    (doctorLoop env s msg l).state.stage = "awaiting_slot_selection" := by
  induction l with
  | nil => left; rfl
  | cons d rest ih =>
    unfold doctorLoop
    split
    · exact handleDoctorMatch_stage env s d
    · exact ih

theorem handleSlotSelection_stage (env : Env) (pid : Nat) (msg : String) (s : ConvState) :
    (handleSlotSelection env pid msg s).state.stage = s.stage ∨
    (handleSlotSelection env pid msg s).state.stage = "general" := by
  unfold handleSlotSelection
  cases hp : parseIntPy msg with
  | none => simp
  | some n =>
    dsimp only
    cases hd : s.selected_doctor with
    | none => simp
    | some d =>
      dsimp only
      split
      · cases hb : book_appointment env d.user_id
          ((env.availableSlots d.user_id).getD (n - 1).toNat default).time_slot_id pid <;> simp
      · simp

theorem handleCheckInactive_stage (env : Env) (pid : Nat) (s : ConvState) :
    (handleCheckInactive env pid s).state.stage = "activate_reminders" ∨
    (handleCheckInactive env pid s).state.stage = "waiting_for_exit" := by
  unfold handleCheckInactive
  cases ha : env.inactiveAppointment pid with
  | none => simp
  | some appt =>
    dsimp only
    split
    · split <;> simp
    · simp

theorem handleWaitingForExit_stage (msg : String) (s : ConvState) :
    (handleWaitingForExit msg s).state.stage = s.stage ∨
    (handleWaitingForExit msg s).state.stage = "reset" := by
  unfold handleWaitingForExit
  split <;> simp

theorem handleActivateReminders_stage (env : Env) (msg : String) (s : ConvState) :
    (handleActivateReminders env msg s).state.stage = s.stage ∨
    (handleActivateReminders env msg s).state.stage = "general" := by
  unfold handleActivateReminders
  split
  · cases hp : s.prescriptions with
    | nil => simp
    | cons current rest =>
      dsimp only
      cases ha : env.activateRx current.prescription_id with
      | error detail => simp
      | ok activated =>
        dsimp only
        cases rest <;> simp
  · split <;> simp

theorem handleGeneral_stage (env : Env) (pid : Nat) (msg : String) (s : ConvState) :
    (handleGeneral env pid msg s).state.stage = s.stage ∨
    (handleGeneral env pid msg s).state.stage = "awaiting_doctor_selection" ∨
    (handleGeneral env pid msg s).state.stage = "check_inactive_appointments" := by
  unfold handleGeneral
  dsimp only
  split
  · cases hg : get_doctors_by_specialization env (env.classifier msg).specialization with
    | error e => simp
    | ok ds =>
      dsimp only
      split <;> simp
  · split
    · simp
    · simp

/-! Helper lemmas: each handler obeys the assignment discipline of C4. -/

theorem resetTurn_discipline (s : ConvState) : AssignDiscipline s (resetTurn s).state := by
  simp [AssignDiscipline, resetTurn]

theorem handleDoctorMatch_discipline (env : Env) (s : ConvState) (d : Doctor) :
    AssignDiscipline s (handleDoctorMatch env s d).state := by
  unfold handleDoctorMatch AssignDiscipline
  dsimp only
  split
  · split <;> simp
  · simp

theorem doctorLoop_discipline (env : Env) (s : ConvState) (msg : String) (l : List Doctor) :
    AssignDiscipline s (doctorLoop env s msg l).state := by
  induction l with
  | nil => simp [AssignDiscipline, doctorLoop]
  | cons d rest ih =>
    unfold doctorLoop
    split
    · exact handleDoctorMatch_discipline env s d
    · exact ih

theorem handleSlotSelection_discipline (env : Env) (pid : Nat) (msg : String) (s : ConvState) :
    AssignDiscipline s (handleSlotSelection env pid msg s).state := by
  unfold handleSlotSelection
  cases hp : parseIntPy msg with
  | none => simp [AssignDiscipline]
  | some n =>
    dsimp only
    cases hd : s.selected_doctor with
    | none => simp [AssignDiscipline]
    | some d =>
      dsimp only
      split
      · cases hb : book_appointment env d.user_id
          ((env.availableSlots d.user_id).getD (n - 1).toNat default).time_slot_id pid <;>
          simp [AssignDiscipline, hd]
      · simp [AssignDiscipline, hd]

theorem handleCheckInactive_discipline (env : Env) (pid : Nat) (s : ConvState) :
    AssignDiscipline s (handleCheckInactive env pid s).state := by
  unfold handleCheckInactive
  cases ha : env.inactiveAppointment pid with
  | none => simp [AssignDiscipline]
  | some appt =>
    dsimp only
    split
    · split <;> simp [AssignDiscipline]
    · simp [AssignDiscipline]

theorem handleWaitingForExit_discipline (msg : String) (s : ConvState) :
    AssignDiscipline s (handleWaitingForExit msg s).state := by
  unfold handleWaitingForExit
  split <;> simp [AssignDiscipline]

theorem handleActivateReminders_discipline (env : Env) (msg : String) (s : ConvState)
    (hstage : s.stage = "activate_reminders") :
    AssignDiscipline s (handleActivateReminders env msg s).state := by
  unfold handleActivateReminders
  split
  · cases hp : s.prescriptions with
    | nil => simp [AssignDiscipline]
    | cons current rest =>
      dsimp only
      cases ha : env.activateRx current.prescription_id with
      | error detail => simp [AssignDiscipline, hp]
      | ok activated =>
        dsimp only
        cases rest with
        | nil => simp [AssignDiscipline]
        | cons next rest2 => simp [AssignDiscipline, hstage]
  · split <;> simp [AssignDiscipline]

theorem handleGeneral_discipline (env : Env) (pid : Nat) (msg : String) (s : ConvState) :
    AssignDiscipline s (handleGeneral env pid msg s).state := by
  unfold handleGeneral
  dsimp only
  split
  · cases hg : get_doctors_by_specialization env (env.classifier msg).specialization with
    | error e => simp [AssignDiscipline]
    | ok ds =>
      dsimp only
      split <;> simp [AssignDiscipline]
  · split
    · simp [AssignDiscipline]
    · simp [AssignDiscipline]

/-- Claim C2 counterexample: the `waiting_for_exit` exit-word transition
assigns the stage string `"reset"`, and session initialization uses
`"initial"`; neither is among the six defined stage values, so a reachable
transition does produce an undefined stage. -/
theorem claim_C2_counterexample :
    (chat_with_bot envBase 7 "ok" sExit).state.stage = "reset" ∧
    "reset" ∉ definedStages ∧
    initial_conversation_state.stage = "initial" ∧
    "initial" ∉ definedStages :=
  ⟨by decide, by decide, rfl, by decide⟩

/-- Claim C2 as amended: the reachable stage values are the six defined
ones plus `"initial"` (session initialization) and `"reset"` (assigned by
the `waiting_for_exit` exit-word transition); every turn of `chat_with_bot`
either keeps the stage unchanged or assigns one of these eight values, so
the session never leaves this closed set. -/
theorem claim_C2_amended :
    initial_conversation_state.stage ∈ allStages ∧
    ∀ (env : Env) (pid : Nat) (raw : String) (s : ConvState),
      (chat_with_bot env pid raw s).state.stage = s.stage ∨
      (chat_with_bot env pid raw s).state.stage ∈ allStages := by
  refine ⟨by decide, ?_⟩
  intro env pid raw s
  unfold chat_with_bot
  dsimp only
  split
  · right
    simp only [resetTurn]
    decide
  · split
    · unfold handleDoctorSelection
      rcases doctorLoop_stage env s (pyLower (pyStrip raw)) s.doctors with h | h
      · left; exact h
      · right; rw [h]; decide
    · split
      · rcases handleSlotSelection_stage env pid (pyLower (pyStrip raw)) s with h | h
        · left; exact h
        · right; rw [h]; decide
      · split
        · rcases handleCheckInactive_stage env pid s with h | h
          · right; rw [h]; decide
          · right; rw [h]; decide
        · split
          · rcases handleWaitingForExit_stage (pyLower (pyStrip raw)) s with h | h
            · left; exact h
            · right; rw [h]; decide
          · split
            · rcases handleActivateReminders_stage env (pyLower (pyStrip raw)) s with h | h
              · left; exact h
              · right; rw [h]; decide
            · rcases handleGeneral_stage env pid (pyLower (pyStrip raw)) s with h | h | h
              · left; exact h
              · right; rw [h]; decide
              · right; rw [h]; decide

/-- Claim C3 counterexample: a reset turn issued while the session is in
`activate_reminders` with a pending prescription returns the stage to
`general` but leaves the pending-prescription list non-empty, because the
reset branch pops only `doctors`, `selected_doctor` and `appointment_id`. -/
theorem claim_C3_counterexample :
    (chat_with_bot envBase 7 "reset" sActivate1).state.stage = "general" ∧
    (chat_with_bot envBase 7 "reset" sActivate1).state.prescriptions = [rxA] ∧
    (chat_with_bot envBase 7 "reset" sActivate1).state.prescriptions ≠ [] :=
  ⟨by decide, by decide, by decide⟩

/-- Claim C3 as amended: for every prior stage and session contents, a
turn whose trimmed, lowercased message is `"reset"` or `"start over"`
returns the session to stage `general` with the doctor-candidate list,
selected doctor and appointment id cleared and replies with the canned
reset message; the pending-prescription list, however, is not cleared and
retains its prior contents. -/
theorem claim_C3_amended (env : Env) (pid : Nat) (raw : String) (s : ConvState)
    (h : resetWords.contains (pyLower (pyStrip raw)) = true) :
    chat_with_bot env pid raw s =
      { reply := Except.ok { response := resetReply, doctors := [] },
        state := { stage := "general", doctors := [], selected_doctor := none,
                   appointment_id := none, prescriptions := s.prescriptions },
        effects := [] } := by
  unfold chat_with_bot
  dsimp only
  rw [if_pos h]
  rfl

/-- Witness for C3: a concrete reset turn from `activate_reminders`. -/
theorem claim_C3_witness :
    chat_with_bot envBase 7 " Reset " sActivate1 =
      { reply := Except.ok { response := resetReply, doctors := [] },
        state := { stage := "general", doctors := [], selected_doctor := none,
                   appointment_id := none, prescriptions := [rxA] },
        effects := [] } :=
  claim_C3_amended envBase 7 " Reset " sActivate1 (by decide)

/-- Claim C4 counterexample: the invariant does not survive a successful
booking turn.  In `awaiting_slot_selection` with Alice selected, input
`"2"` books a slot and returns the stage to `general` without clearing
`selected_doctor`, so the post-state has a selected doctor outside
`awaiting_slot_selection`. -/
theorem claim_C4_counterexample :
    SessionInv sSlotSel ∧ ¬ SessionInv (chat_with_bot env3 7 "2" sSlotSel).state :=
  ⟨by decide, by decide⟩

/-- Claim C4 as amended: the stated invariant is not preserved (a
successful booking returns to `general` with `selected_doctor` still set,
and a reset turn returns to `general` without clearing
`pending_prescriptions`).  What every turn does guarantee is the
assignment discipline: a turn that changes `selected_doctor` to a set
value transitions to `awaiting_slot_selection` in that same turn, and a
turn that changes `pending_prescriptions` to a different non-empty list is
in or enters `activate_reminders` in that same turn. -/
theorem claim_C4_amended (env : Env) (pid : Nat) (raw : String) (s : ConvState) :
    AssignDiscipline s (chat_with_bot env pid raw s).state := by
  unfold chat_with_bot
  dsimp only
  split
  · exact resetTurn_discipline s
  · split
    · exact doctorLoop_discipline env s (pyLower (pyStrip raw)) s.doctors
    · split
      · exact handleSlotSelection_discipline env pid (pyLower (pyStrip raw)) s
      · split
        · exact handleCheckInactive_discipline env pid s
        · split
          · exact handleWaitingForExit_discipline (pyLower (pyStrip raw)) s
          · split
            · next h5 => exact handleActivateReminders_discipline env (pyLower (pyStrip raw)) s h5
            · exact handleGeneral_discipline env pid (pyLower (pyStrip raw)) s

/-- Witness for C4's amended discipline at a concrete doctor-selection
turn that does set `selected_doctor`. -/
theorem claim_C4_witness :
    AssignDiscipline sDoctorSel (chat_with_bot env3 7 "Alice Smith" sDoctorSel).state :=
  claim_C4_amended env3 7 "Alice Smith" sDoctorSel

/-! Helper lemmas about the word sets and the stage dispatch. -/

theorem contains_reset_false_of_affirmative {m : String}
    (h : affirmativeResponses.contains m = true) : resetWords.contains m = false := by
  have hm : m ∈ affirmativeResponses := by simpa using h
  fin_cases hm <;> decide

theorem contains_reset_false_of_parse {m : String} {n : Int}
    (h : parseIntPy m = some n) : resetWords.contains m = false := by
  cases hcm : resetWords.contains m with
  | false => rfl
  | true =>
    have hm : m ∈ resetWords := by simpa using hcm
    fin_cases hm
    · rw [show parseIntPy "reset" = none from by decide] at h; cases h
    · rw [show parseIntPy "start over" = none from by decide] at h; cases h

theorem chat_dispatch_doctor (env : Env) (pid : Nat) (raw : String) (s : ConvState)
    (hstage : s.stage = "awaiting_doctor_selection")
    (hreset : resetWords.contains (pyLower (pyStrip raw)) = false) :
    chat_with_bot env pid raw s = handleDoctorSelection env (pyLower (pyStrip raw)) s := by
  unfold chat_with_bot
  dsimp only
  rw [if_neg (by rw [hreset]; decide), if_pos hstage]

theorem chat_dispatch_slot (env : Env) (pid : Nat) (raw : String) (s : ConvState)
    (hstage : s.stage = "awaiting_slot_selection")
    (hreset : resetWords.contains (pyLower (pyStrip raw)) = false) :
    chat_with_bot env pid raw s = handleSlotSelection env pid (pyLower (pyStrip raw)) s := by
  unfold chat_with_bot
  dsimp only
  rw [if_neg (by rw [hreset]; decide), if_neg (by rw [hstage]; decide), if_pos hstage]

theorem chat_dispatch_activate (env : Env) (pid : Nat) (raw : String) (s : ConvState)
    (hstage : s.stage = "activate_reminders")
    (hreset : resetWords.contains (pyLower (pyStrip raw)) = false) :
    chat_with_bot env pid raw s = handleActivateReminders env (pyLower (pyStrip raw)) s := by
  unfold chat_with_bot
  dsimp only
  rw [if_neg (by rw [hreset]; decide), if_neg (by rw [hstage]; decide),
      if_neg (by rw [hstage]; decide), if_neg (by rw [hstage]; decide),
      if_neg (by rw [hstage]; decide), if_pos hstage]

/-- Claim C1 counterexample: in `awaiting_slot_selection` with three
available slots, the non-numeric message `"abc"` does not yield a
clarification reply; the ValueError raised by `int("abc")` escapes the
stage handler and is surfaced by the top-level handler as an
HTTPException 500 system failure. -/
theorem claim_C1_counterexample :
    (chat_with_bot env3 7 "abc" sSlotSel).reply =
      Except.error { status_code := 500, detail := chatFailureDetail } := by decide

/-- Claim C1 as amended: in stage `awaiting_slot_selection`, a numeric but
out-of-range message keeps the stage (and whole session) unchanged and
returns the clarification reply without side effects; a non-numeric
message, however, raises a ValueError that only the top-level handler
catches, surfacing as an HTTP 500 system failure (session still unchanged,
no side effects) rather than being converted to a clarification reply. -/
theorem claim_C1_amended (env : Env) (pid : Nat) (raw : String) (s : ConvState) (d : Doctor)
    (hstage : s.stage = "awaiting_slot_selection")
    (hsel : s.selected_doctor = some d)
    (hreset : resetWords.contains (pyLower (pyStrip raw)) = false)
    (hbad : match parseIntPy (pyLower (pyStrip raw)) with
      | none => True
      | some n => n < 1 ∨ ((env.availableSlots d.user_id).length : Int) < n) :
    chat_with_bot env pid raw s =
      match parseIntPy (pyLower (pyStrip raw)) with
      | none =>
        { reply := Except.error { status_code := 500, detail := chatFailureDetail },
          state := s, effects := [] }
      | some _ =>
        { reply := Except.ok { response := slotInvalidReply, doctors := [] },
          state := s, effects := [] } := by
  rw [chat_dispatch_slot env pid raw s hstage hreset]
  rcases s with ⟨stage, doctors, sel, appt, pres⟩
  dsimp only at hsel ⊢
  subst hsel
  unfold handleSlotSelection
  cases hp : parseIntPy (pyLower (pyStrip raw)) with
  | none => rfl
  | some n =>
    dsimp only
    rw [hp] at hbad
    dsimp only at hbad
    rw [if_neg (by omega)]

/-- Witness for C1's amended statement at the non-numeric input `"abc"`. -/
theorem claim_C1_witness :
    chat_with_bot env3 7 "abc" sSlotSel =
      { reply := Except.error { status_code := 500, detail := chatFailureDetail },
        state := sSlotSel, effects := [] } :=
  claim_C1_amended env3 7 "abc" sSlotSel drAlice rfl rfl (by decide) (by trivial)

/-- Claim C5: in `activate_reminders` with a non-empty pending list, an
affirmative turn whose reminder activation succeeds calls the activation
endpoint and the prescription-inactive update for exactly the head
prescription, pops the head, keeps stage `activate_reminders` and asks
about the next prescription when more remain, and otherwise returns to
`general` with the done reply. -/
theorem claim_C5 (env : Env) (pid : Nat) (raw : String) (s : ConvState)
    (p : PendingRx) (rest : List PendingRx) (ts : List RemTime)
    (hstage : s.stage = "activate_reminders")
    (hmsg : affirmativeResponses.contains (pyLower (pyStrip raw)) = true)
    (hp : s.prescriptions = p :: rest)
    (hact : env.activateRx p.prescription_id = Except.ok ts) :
    chat_with_bot env pid raw s =
      match rest with
      | next :: _ =>
        { reply := Except.ok
            { response := activationNextReply p.details (remTimesString ts) next.details,
              doctors := [] },
          state := { s with prescriptions := rest },
          effects := [Effect.activateRemindersCall p.prescription_id,
                      Effect.markPrescriptionInactiveCall p.prescription_id] }
      | [] =>
        { reply := Except.ok
            { response := activationDoneReply p.details (remTimesString ts), doctors := [] },
          state := { s with stage := "general", prescriptions := [] },
          effects := [Effect.activateRemindersCall p.prescription_id,
                      Effect.markPrescriptionInactiveCall p.prescription_id] } := by
  rw [chat_dispatch_activate env pid raw s hstage (contains_reset_false_of_affirmative hmsg)]
  rcases s with ⟨stage, doctors, sel, appt, pres⟩
  dsimp only at hp ⊢
  subst hp
  unfold handleActivateReminders
  rw [if_pos hmsg]
  dsimp only
  rw [hact]
  dsimp only
  cases rest <;> rfl

/-- Witness for C5: first affirmative turn with two pending prescriptions
activates the first, pops it and asks about the second. -/
theorem claim_C5_witness :
    chat_with_bot envAct 7 "yes" sActivate2 =
      { reply := Except.ok
          { response := activationNextReply "Amoxicillin"
              (remTimesString [{ hour := 9, minute := 0 }, { hour := 18, minute := 0 }])
              "Ibuprofen",
            doctors := [] },
        state := { sActivate2 with prescriptions := [rxB] },
        effects := [Effect.activateRemindersCall 11,
                    Effect.markPrescriptionInactiveCall 11] } :=
  claim_C5 envAct 7 "yes" sActivate2 rxA [rxB]
    [{ hour := 9, minute := 0 }, { hour := 18, minute := 0 }] rfl (by decide) rfl rfl

/-- Claim C6: in `awaiting_slot_selection` with k available slots, an
integer input n with 1 ≤ n ≤ k books the 0-based slot n-1 through the
booking service, which creates the appointment and marks the slot booked,
returns the confirmation reply and sets the stage back to `general`. -/
theorem claim_C6 (env : Env) (pid : Nat) (raw : String) (s : ConvState) (d : Doctor)
    (n : Int) (slot ts : TimeSlot)
    (hstage : s.stage = "awaiting_slot_selection")
    (hsel : s.selected_doctor = some d)
    (hparse : parseIntPy (pyLower (pyStrip raw)) = some n)
    (h1 : 1 ≤ n) (h2 : n ≤ ((env.availableSlots d.user_id).length : Int))
    (hslot : (env.availableSlots d.user_id).getD (n - 1).toNat default = slot)
    (hstore : env.slotById slot.time_slot_id = some ts)
    (havail : ts.status = "available") :
    chat_with_bot env pid raw s =
      { reply := Except.ok { response := bookingConfirmReply d slot, doctors := [] },
        state := { s with stage := "general" },
        effects := [Effect.createAppointment d.user_id slot.time_slot_id pid,
                    Effect.updateSlotStatus slot.time_slot_id "booked"] } := by
  rw [chat_dispatch_slot env pid raw s hstage (contains_reset_false_of_parse hparse)]
  rcases s with ⟨stage, doctors, sel, appt, pres⟩
  dsimp only at hsel ⊢
  subst hsel
  unfold handleSlotSelection
  rw [hparse]
  dsimp only
  rw [if_pos (And.intro (by omega) (by omega))]
  rw [hslot]
  unfold book_appointment
  rw [hstore]
  dsimp only
  rw [if_neg (by rw [havail]; intro hq; exact hq rfl)]

/-- Witness for C6: input `"2"` with three slots books slot index 1. -/
theorem claim_C6_witness :
    chat_with_bot env3 7 "2" sSlotSel =
      { reply := Except.ok { response := bookingConfirmReply drAlice slotB, doctors := [] },
        state := { sSlotSel with stage := "general" },
        effects := [Effect.createAppointment 1 102 7, Effect.updateSlotStatus 102 "booked"] } :=
  claim_C6 env3 7 "2" sSlotSel drAlice 2 slotB slotB rfl rfl (by decide) (by decide)
    (by decide) (by decide) (by decide) rfl

/-- Claim C8: `generate_reminder_times` returns exactly the 09:00 preset
for frequency 1, the 09:00/18:00 presets for frequency 2 and the
09:00/13:00/18:00 presets for frequency 3, and it fails with the
unsupported-value error exactly for the other integers. -/
theorem claim_C8 :
    generate_reminder_times 1 = Except.ok [{ hour := 9, minute := 0 }] ∧
    generate_reminder_times 2 =
      Except.ok [{ hour := 9, minute := 0 }, { hour := 18, minute := 0 }] ∧
    generate_reminder_times 3 =
      Except.ok [{ hour := 9, minute := 0 }, { hour := 13, minute := 0 },
                 { hour := 18, minute := 0 }] ∧
    ∀ f : Int,
      (generate_reminder_times f =
        Except.error ("Unsupported frequency value: " ++ toString f)) ↔
      (f ≠ 1 ∧ f ≠ 2 ∧ f ≠ 3) := by
  refine ⟨rfl, rfl, rfl, ?_⟩
  intro f
  by_cases h1 : f = 1
  · subst h1; simp [generate_reminder_times]
  by_cases h2 : f = 2
  · subst h2; simp [generate_reminder_times]
  by_cases h3 : f = 3
  · subst h3; simp [generate_reminder_times]
  simp [generate_reminder_times, h1, h2, h3]

/-- Claim C10: in `activate_reminders`, an affirmative turn with an empty
pending list takes the guarded else branch: no head access, no collaborator
call, the already-activated reply, and the stage set to `general`. -/
theorem claim_C10 (env : Env) (pid : Nat) (raw : String) (s : ConvState)
    (hstage : s.stage = "activate_reminders")
    (hmsg : affirmativeResponses.contains (pyLower (pyStrip raw)) = true)
    (hempty : s.prescriptions = []) :
    chat_with_bot env pid raw s =
      { reply := Except.ok { response := allActivatedReply, doctors := [] },
        state := { s with stage := "general" }, effects := [] } := by
  rw [chat_dispatch_activate env pid raw s hstage (contains_reset_false_of_affirmative hmsg)]
  rcases s with ⟨stage, doctors, sel, appt, pres⟩
  dsimp only at hempty ⊢
  subst hempty
  unfold handleActivateReminders
  rw [if_pos hmsg]

/-- Witness for C10 at a concrete affirmative turn with no pending
prescriptions. -/
theorem claim_C10_witness :
    chat_with_bot envAct 7 "sure" sActivate0 =
      { reply := Except.ok { response := allActivatedReply, doctors := [] },
        state := { sActivate0 with stage := "general" }, effects := [] } :=
  claim_C10 envAct 7 "sure" sActivate0 rfl (by decide) rfl

/-! Helper lemmas for the doctor-selection stage. -/

theorem handleDoctorMatch_success (env : Env) (s : ConvState) (d : Doctor)
    (h : env.availableSlots d.user_id ≠ []) :
    handleDoctorMatch env s d =
      { reply := Except.ok
          { response := slotSelectionPrompt d (env.availableSlots d.user_id), doctors := [] },
        state := { s with stage := "awaiting_slot_selection", selected_doctor := some d },
        effects := [] } := by
  unfold handleDoctorMatch
  dsimp only
  rw [if_neg (by simp [List.isEmpty_iff, h])]

theorem handleDoctorMatch_noslots (env : Env) (s : ConvState) (d : Doctor)
    (h : env.availableSlots d.user_id = []) :
    (handleDoctorMatch env s d).state = s := by
  unfold handleDoctorMatch
  dsimp only
  rw [if_pos (by simp [List.isEmpty_iff, h])]
  split <;> rfl

theorem doctorLoop_eq_find (env : Env) (s : ConvState) (msg : String) (l : List Doctor) :
    doctorLoop env s msg l =
      match l.find? (fun d => msg == fullNameLower d) with
      | some d => handleDoctorMatch env s d
      | none =>
        { reply := Except.ok { response := doctorNotFoundReply, doctors := [] },
          state := s, effects := [] } := by
  induction l with
  | nil => rfl
  | cons d rest ih =>
    unfold doctorLoop
    by_cases h : msg = fullNameLower d
    · rw [if_pos h, List.find?_cons_of_pos _ (by simp [h])]
    · rw [if_neg h, List.find?_cons_of_neg _ (by simp [h]), ih]

/-- Claim C7: in `awaiting_doctor_selection`, a (non-reset) message selects
a doctor exactly when it equals a candidate's lowercased `"first last"`
full name, the first matching candidate in list order winning (`find?`);
on no match the turn leaves the session unchanged and asks to re-enter the
name; on a match the turn enters `awaiting_slot_selection` precisely when
the matched doctor has at least one open slot, selecting that doctor, and
leaves the session state unchanged when the doctor has no open slot. -/
theorem claim_C7 (env : Env) (pid : Nat) (raw : String) (s : ConvState)
    (hstage : s.stage = "awaiting_doctor_selection")
    (hreset : resetWords.contains (pyLower (pyStrip raw)) = false) :
    (s.doctors.find? (fun d => pyLower (pyStrip raw) == fullNameLower d) = none →
      chat_with_bot env pid raw s =
        { reply := Except.ok { response := doctorNotFoundReply, doctors := [] },
          state := s, effects := [] }) ∧
    ∀ d : Doctor,
      s.doctors.find? (fun d => pyLower (pyStrip raw) == fullNameLower d) = some d →
      ((chat_with_bot env pid raw s).state.stage = "awaiting_slot_selection" ↔
        env.availableSlots d.user_id ≠ []) ∧
      (env.availableSlots d.user_id ≠ [] →
        chat_with_bot env pid raw s =
          { reply := Except.ok
              { response := slotSelectionPrompt d (env.availableSlots d.user_id), doctors := [] },
            state := { s with stage := "awaiting_slot_selection", selected_doctor := some d },
            effects := [] }) ∧
      (env.availableSlots d.user_id = [] →
        (chat_with_bot env pid raw s).state = s) := by
  rw [chat_dispatch_doctor env pid raw s hstage hreset]
  unfold handleDoctorSelection
  rw [doctorLoop_eq_find]
  constructor
  · intro hnone
    rw [hnone]
  · intro d hd
    rw [hd]
    dsimp only
    refine ⟨?_, ?_, ?_⟩
    · constructor
      · intro hst
        by_contra hne
        rw [handleDoctorMatch_noslots env s d hne, hstage] at hst
        exact absurd hst (by decide)
      · intro hne
        rw [handleDoctorMatch_success env s d hne]
    · intro hne
      exact handleDoctorMatch_success env s d hne
    · intro he
      exact handleDoctorMatch_noslots env s d he

/-- Witness for C7: with candidates Alice Smith and Bob Lee, the input
`"Alice Smith"` (case-insensitively `"alice smith"`) selects Alice and,
since she has open slots, enters `awaiting_slot_selection`. -/
theorem claim_C7_witness :
    (chat_with_bot env3 7 "Alice Smith" sDoctorSel).state.stage = "awaiting_slot_selection" ∧
    (chat_with_bot env3 7 "Alice Smith" sDoctorSel).state.selected_doctor = some drAlice := by
  have h := (claim_C7 env3 7 "Alice Smith" sDoctorSel rfl (by decide)).2 drAlice (by decide)
  refine ⟨(h.1).mpr (by decide), ?_⟩
  rw [h.2.1 (by decide)]

/-! Helper lemmas characterising the `activate_reminders` CRUD loops. -/

theorem getD_set_self (l : List ReminderRec) (i : Nat) (v : ReminderRec)
    (h : i < l.length) : (l.set i v).getD i default = v := by
  simp [List.getD, List.getElem?_set, h]

theorem getD_set_ne (l : List ReminderRec) (i j : Nat) (v : ReminderRec)
    (h : i ≠ j) : (l.set i v).getD j default = l.getD j default := by
  simp [List.getD, List.getElem?_set, h]

theorem innerLoop_length (base day count j : Nat) (rems : List ReminderRec) (idx : Nat) :
    (innerLoop base day count j (rems, idx)).1.length = rems.length := by
  induction j generalizing rems idx with
  | zero => rfl
  | succ j ih =>
    unfold innerLoop
    split
    · rw [ih, List.length_set]
    · exact ih rems idx

theorem innerLoop_snd (base day count j : Nat) (rems : List ReminderRec) (idx : Nat)
    (hidx : idx ≤ count) :
    (innerLoop base day count j (rems, idx)).2 = min (idx + j) count := by
  induction j generalizing rems idx with
  | zero =>
    dsimp only [innerLoop]
    omega
  | succ j ih =>
    unfold innerLoop
    split
    · next h => rw [ih _ _ (by omega)]; omega
    · next h => rw [ih _ _ hidx]; omega

theorem innerLoop_getD (base day count j : Nat) (rems : List ReminderRec) (idx i : Nat)
    (hidx : idx ≤ count) (hlen : count ≤ rems.length) :
    (innerLoop base day count j (rems, idx)).1.getD i default =
      (if idx ≤ i ∧ i < min (idx + j) count then activatedRem base day (rems.getD i default)
       else rems.getD i default) := by
  induction j generalizing rems idx with
  | zero =>
    dsimp only [innerLoop]
    rw [if_neg (by omega)]
  | succ j ih =>
    unfold innerLoop
    split
    · next h =>
      rw [ih (rems.set idx (activatedRem base day (rems.getD idx default))) (idx + 1)
          (by omega) (by rw [List.length_set]; exact hlen)]
      by_cases hi : i = idx
      · subst hi
        rw [getD_set_self rems i _ (by omega)]
        split_ifs <;> first | rfl | (exfalso; omega)
      · rw [getD_set_ne rems idx i _ (Ne.symm hi)]
        split_ifs <;> first | rfl | (exfalso; omega)
    · next h =>
      rw [ih rems idx hidx hlen]
      split_ifs <;> first | rfl | (exfalso; omega)

theorem outerLoop_length (base freq count dLeft day : Nat) (rems : List ReminderRec)
    (idx : Nat) :
    (outerLoop base freq count day dLeft (rems, idx)).1.length = rems.length := by
  induction dLeft generalizing day rems idx with
  | zero => rfl
  | succ dLeft ih =>
    unfold outerLoop
    rw [ih]
    exact innerLoop_length base day count freq rems idx

theorem outerLoop_snd (base freq count dLeft day : Nat) (rems : List ReminderRec)
    (idx : Nat) (hidx : idx ≤ count) :
    (outerLoop base freq count day dLeft (rems, idx)).2 = min (idx + dLeft * freq) count := by
  induction dLeft generalizing day rems idx with
  | zero =>
    dsimp only [outerLoop]
    omega
  | succ dLeft ih =>
    unfold outerLoop
    have hsnd := innerLoop_snd base day count freq rems idx hidx
    rw [ih (day + 1) (innerLoop base day count freq (rems, idx)).1
        (innerLoop base day count freq (rems, idx)).2 (by rw [hsnd]; omega)]
    rw [hsnd, Nat.succ_mul]
    generalize dLeft * freq = A
    omega

theorem outerLoop_getD (base freq count dLeft day : Nat) (rems : List ReminderRec)
    (idx i : Nat) (hidx : idx ≤ count) (hlen : count ≤ rems.length) :
    (outerLoop base freq count day dLeft (rems, idx)).1.getD i default =
      (if idx ≤ i ∧ i < min (idx + dLeft * freq) count then
        activatedRem base (day + (i - idx) / freq) (rems.getD i default)
       else rems.getD i default) := by
  induction dLeft generalizing day rems idx with
  | zero =>
    dsimp only [outerLoop]
    rw [if_neg (by omega)]
  | succ dLeft ih =>
    unfold outerLoop
    have hsnd := innerLoop_snd base day count freq rems idx hidx
    have hlen2 : count ≤ (innerLoop base day count freq (rems, idx)).1.length := by
      rw [innerLoop_length]; exact hlen
    have hidx2 : (innerLoop base day count freq (rems, idx)).2 ≤ count := by
      rw [hsnd]; omega
    rw [ih (day + 1) (innerLoop base day count freq (rems, idx)).1
        (innerLoop base day count freq (rems, idx)).2 hidx2 hlen2]
    rw [innerLoop_getD base day count freq rems idx i hidx hlen]
    rw [hsnd, Nat.succ_mul]
    by_cases hfreq : freq = 0
    · subst hfreq
      split_ifs <;> first | rfl | (exfalso; omega)
    · have hfpos : 0 < freq := Nat.pos_of_ne_zero hfreq
      generalize dLeft * freq = A
      by_cases hk : idx + freq ≤ count
      · rw [show min (idx + freq) count = idx + freq from by omega]
        split_ifs <;>
          first
          | rfl
          | (exfalso; omega)
          | (rw [show (day + 1) + (i - (idx + freq)) / freq = day + (i - idx) / freq from by
                rw [show i - idx = (i - (idx + freq)) + freq from by omega,
                    Nat.add_div_right _ hfpos]
                omega])
          | (rw [show day + (i - idx) / freq = day from by
                rw [Nat.div_eq_of_lt (by omega)]; omega])
      · rw [show min (idx + freq) count = count from by omega]
        split_ifs <;>
          first
          | rfl
          | (exfalso; omega)
          | (rw [show day + (i - idx) / freq = day from by
                rw [Nat.div_eq_of_lt (by omega)]; omega])

/-- Claim C9: when the stored reminder count differs from the expected
`frequency * duration`, `activate_reminders` logs the mismatch (flag
`true`) and still returns normally with the same number of rows, where
every reminder before position `frequency * duration` is activated (status
`ACTIVE`, date `base + i / frequency` days ahead) and the rest are left
untouched: the inconsistency never blocks activation. -/
theorem claim_C9 (base freq dur : Nat) (rems : List ReminderRec)
    (hmm : rems.length ≠ freq * dur) :
    (activate_reminders base freq dur rems).2 = true ∧
    (activate_reminders base freq dur rems).1.length = rems.length ∧
    ∀ i, i < rems.length →
      (activate_reminders base freq dur rems).1.getD i default =
        (if i < freq * dur then activatedRem base (i / freq) (rems.getD i default)
         else rems.getD i default) := by
  refine ⟨?_, ?_, ?_⟩
  · unfold activate_reminders
    dsimp only
    simp [hmm]
  · unfold activate_reminders
    dsimp only
    exact outerLoop_length base freq rems.length dur 0 rems 0
  · intro i hi
    unfold activate_reminders
    dsimp only
    rw [outerLoop_getD base freq rems.length dur 0 rems 0 i (Nat.zero_le _) (le_refl _)]
    simp only [Nat.zero_add, Nat.sub_zero, show dur * freq = freq * dur from Nat.mul_comm dur freq]
    generalize freq * dur = B
    split_ifs <;> first | rfl | (exfalso; omega)

/-- Witness for C9: three stored reminders against an expected count of
2 × 2 = 4; the mismatch is logged and all three rows are still activated,
the third with the day-1 offset. -/
theorem claim_C9_witness :
    (activate_reminders 5 2 2 [remRow 1, remRow 2, remRow 3]).2 = true ∧
    (activate_reminders 5 2 2 [remRow 1, remRow 2, remRow 3]).1.length = 3 ∧
    (activate_reminders 5 2 2 [remRow 1, remRow 2, remRow 3]).1.getD 2 default =
      activatedRem 5 1 (remRow 3) := by
  have h := claim_C9 5 2 2 [remRow 1, remRow 2, remRow 3] (by decide)
  refine ⟨h.1, h.2.1, ?_⟩
  rw [h.2.2 2 (by decide)]
  decide

end BeAibotHealthcare
